import Mathlib

/-!
Verification of the consul-k8s connect-sidecar fragment.

Part 1 embeds the pure container-spec builder
`(h *Handler) connectSidecar(pod *corev1.Pod) corev1.Container` from
src/connect-inject/connect_sidecar.go, together with the slice of the
Kubernetes core/v1 data model it touches.

Part 2 models the `connect-sidecar` subcommand (flag validation, service
loading, the fixed-interval sync loop and the one-shot interrupt), whose
implementation is not part of the shown sources; it is modelled from the
specification, as discrete-event state transitions.
-/

namespace ConnectInject

/-- Slice of corev1.ObjectFieldSelector used by the builder. -/
structure ObjectFieldSelector where
  fieldPath : String
deriving DecidableEq

/-- Slice of corev1.EnvVarSource used by the builder. -/
structure EnvVarSource where
  fieldRef : Option ObjectFieldSelector
deriving DecidableEq

/-- Slice of corev1.EnvVar used by the builder. -/
structure EnvVar where
  name : String
  value : String
  valueFrom : Option EnvVarSource
deriving DecidableEq

/-- Slice of corev1.VolumeMount used by the builder. -/
structure VolumeMount where
  name : String
  mountPath : String
deriving DecidableEq

/-- Slice of corev1.Container used by the builder and the pod spec. -/
structure Container where
  name : String
  image : String
  env : List EnvVar
  volumeMounts : List VolumeMount
  command : List String
deriving DecidableEq

/-- Slice of corev1.Pod: object metadata (name, annotation map) and the
containers of the pod spec.  The Go annotation map is represented as an
association list queried with `List.lookup`. -/
structure Pod where
  name : String
  annotations : List (String × String)
  containers : List Container
deriving DecidableEq

/-- Slice of the connect-inject Handler: the fields read by
connectSidecar (AuthMethod, ImageConsulK8s) plus the logger, which the
builder never reads, carried as an opaque string. -/
structure Handler where
  log : String
  authMethod : String
  imageConsulK8s : String
deriving DecidableEq

/-- Modelled from the spec: the constant annotationSyncPeriod is declared
outside the shown sources; its value is pinned by the sync-period test,
which annotates the pod with this key. -/
def annotationSyncPeriod : String := "consul.hashicorp.com/connect-sync-period"

/-- Modelled from the spec: the constant volumeName is declared outside the
shown sources; only the mount path is specified, so the name of the volume is an
arbitrary fixed string here. -/
def volumeName : String := "consul-connect-inject-data"

/-- Go unicode.IsSpace on the code points relevant to strings: the
White_Space property. -/
def goIsSpace (c : Char) : Bool :=
  c = ' ' || c = '\t' || c = '\n' || c.toNat = 0x0b || c.toNat = 0x0c || c = '\r' ||
  c.toNat = 0x85 || c.toNat = 0xa0 || c.toNat = 0x1680 ||
  (0x2000 ≤ c.toNat && c.toNat ≤ 0x200a) ||
  c.toNat = 0x2028 || c.toNat = 0x2029 || c.toNat = 0x202f ||
  c.toNat = 0x205f || c.toNat = 0x3000

/-- Go strings.TrimSpace: drop leading and trailing White_Space code
points, leaving the interior untouched. -/
def trimSpace (s : String) : String :=
  ⟨((s.data.dropWhile goIsSpace).reverse.dropWhile goIsSpace).reverse⟩

/-- The command slice built at the top of connectSidecar: the four fixed
arguments, then `-token-file=...` when an auth method is configured, then
`-sync-period=...` when the pod carries the annotation. -/
def sidecarCommand (h : Handler) (pod : Pod) : List String :=
  let c0 := ["consul-k8s", "connect-sidecar",
             "-service-config", "/consul/connect-inject/service.hcl"]
  let c1 := if h.authMethod ≠ "" then
              c0 ++ ["-token-file=/consul/connect-inject/acl-token"]
            else c0
  match pod.annotations.lookup annotationSyncPeriod with
  | some period => c1 ++ ["-sync-period=" ++ trimSpace period]
  | none => c1

/-- Embedding of (h *Handler).connectSidecar(pod *corev1.Pod), transcribed
field by field from src/connect-inject/connect_sidecar.go. -/
def connectSidecar (h : Handler) (pod : Pod) : Container :=
  { name := "consul-connect-sidecar"
    image := h.imageConsulK8s
    env := [{ name := "HOST_IP", value := "",
              valueFrom := some { fieldRef := some { fieldPath := "status.hostIP" } } },
            { name := "CONSUL_HTTP_ADDR", value := "$(HOST_IP):8500",
              valueFrom := none }]
    volumeMounts := [{ name := volumeName, mountPath := "/consul/connect-inject" }]
    command := sidecarCommand h pod }

/-- State-passing rendering of the same Go body: the handler and the pod
are threaded through the call as explicit state, so that the frame claim
(the callee writes neither *pod nor *h) is expressible.  Every statement of
the source only reads, so each step returns the state it received. -/
def connectSidecarSt (h : Handler) (pod : Pod) : Container × Handler × Pod :=
  let (auth, h) := (h.authMethod, h)
  let (anns, pod) := (pod.annotations, pod)
  let (img, h) := (h.imageConsulK8s, h)
  let c0 := ["consul-k8s", "connect-sidecar",
             "-service-config", "/consul/connect-inject/service.hcl"]
  let c1 := if auth ≠ "" then
              c0 ++ ["-token-file=/consul/connect-inject/acl-token"]
            else c0
  let c2 := match anns.lookup annotationSyncPeriod with
    | some period => c1 ++ ["-sync-period=" ++ trimSpace period]
    | none => c1
  ({ name := "consul-connect-sidecar"
     image := img
     env := [{ name := "HOST_IP", value := "",
               valueFrom := some { fieldRef := some { fieldPath := "status.hostIP" } } },
             { name := "CONSUL_HTTP_ADDR", value := "$(HOST_IP):8500",
               valueFrom := none }]
     volumeMounts := [{ name := volumeName, mountPath := "/consul/connect-inject" }]
     command := c2 }, h, pod)

end ConnectInject

namespace Sidecar

/-- Modelled from the spec: the service kind of a declaration (a plain
service or its mesh-proxy companion, marked connect-proxy in the input). -/
inductive SvcKind where
  | normal
  | connectProxy
deriving DecidableEq

/-- Modelled from the spec: the nested proxy block of a mesh-proxy
declaration. -/
structure ProxyConfig where
  destinationServiceName : String
  destinationServiceId : String
  localServicePort : Nat
deriving DecidableEq

/-- Modelled from the spec: one service declaration of the declarative
input (id, name, port, kind, optional proxy block). -/
structure ServiceDeclaration where
  id : String
  name : String
  port : Nat
  kind : SvcKind
  proxy : Option ProxyConfig
deriving DecidableEq

/-- Modelled from the spec: the RegistryClient boundary operations, as
observed by the registry server. -/
inductive RegistryOp where
  | register (svc : ServiceDeclaration)
  | deregister (id : String)
deriving DecidableEq

/-- Modelled from the spec: the discrete events driving the sync loop — a
timer tick (carrying whether the registry endpoint is reachable at that
moment) and the delivery of an external interrupt. -/
inductive Ev where
  | tick (up : Bool)
  | intr
deriving DecidableEq

/-- Modelled from the spec: the SyncState owned by the command — the
one-shot cancellation signal, the terminal stopped flag, the number of
teardown passes performed, the registration calls the registry server
observed, and the deregistrations attempted during teardown. -/
structure EngineState where
  sigClosed : Bool
  stopped : Bool
  teardowns : Nat
  observed : List RegistryOp
  deregAttempts : List String
deriving DecidableEq

/-- The engine state at command start: signal open, loop running, nothing
attempted yet. -/
def initEngine : EngineState :=
  { sigClosed := false, stopped := false, teardowns := 0,
    observed := [], deregAttempts := [] }

/-- Modelled from the spec: closing the cancellation signal; closing an
already-closed one-shot channel is a runtime panic. -/
def closeSignal (s : EngineState) : Except String EngineState :=
  if s.sigClosed then Except.error "close of closed channel"
  else Except.ok { s with sigClosed := true }

/-- Modelled from the spec: (c *Command).interrupt() fires the one-shot
cancellation signal, guarded by a single-fire latch so a second fire is a
no-op rather than a double close. -/
def interrupt (s : EngineState) : Except String EngineState :=
  if s.sigClosed then Except.ok s else closeSignal s

/-- Modelled from the spec: runOnce() attempts to register both declared
services, in input order, in one sequential attempt; the server observes
the calls only when the endpoint is reachable, and a failed attempt leaves
no state behind — the next tick simply retries both. -/
def runOnce (svcs : List ServiceDeclaration) (up : Bool) (s : EngineState) : EngineState :=
  if up then { s with observed := s.observed ++ svcs.map RegistryOp.register }
  else s

/-- Modelled from the spec: deregisterAll() performs one best-effort
removal of both services during shutdown; it runs exactly once, and its
failures never prevent process exit. -/
def deregisterAll (svcs : List ServiceDeclaration) (s : EngineState) : EngineState :=
  { s with stopped := true, teardowns := s.teardowns + 1,
           deregAttempts := s.deregAttempts ++ svcs.map (fun d => d.id) }

/-- Modelled from the spec: one iteration of the blocking-select loop. On
a tick, a stopped engine does nothing; an interrupted engine performs the
single teardown pass instead of waiting again; otherwise the engine runs
one registration attempt at the fixed cadence (no backoff growth — every
tick is the same fixed interval). On interrupt delivery the one-shot
signal is fired through the guarded latch. -/
def engineStep (svcs : List ServiceDeclaration) (s : EngineState) : Ev → EngineState
  | Ev.tick up =>
    if s.stopped then s
    else if s.sigClosed then deregisterAll svcs s
    else runOnce svcs up s
  | Ev.intr =>
    match interrupt s with
    | Except.ok s2 => s2
    | Except.error _ => s

/-- The loop run over a finite schedule of events. -/
def engineRun (svcs : List ServiceDeclaration) (evs : List Ev) (s : EngineState) : EngineState :=
  evs.foldl (engineStep svcs) s

/-- Modelled from the spec: the inputs of the command — the two flag values and
the external collaborators (file system, HCL service loader, duration
parser), each abstracted as a function. -/
structure RunInput where
  serviceConfigFlag : Option String
  syncPeriodFlag : Option String
  fileContents : String → Option String
  parseHCL : String → Except String (List ServiceDeclaration)
  parseDuration : String → Option Nat

/-- The sync interval used when no -sync-period flag is given. -/
def defaultSyncPeriod : Nat := 600000

/-- Modelled from the spec: flag validation — -service-config must be set,
and a given -sync-period must parse as a duration. -/
def validateFlags (inp : RunInput) : Except String (String × Nat) :=
  match inp.serviceConfigFlag with
  | none => Except.error "-service-config must be set"
  | some path =>
    match inp.syncPeriodFlag with
    | none => Except.ok (path, defaultSyncPeriod)
    | some raw =>
      match inp.parseDuration raw with
      | none => Except.error ("-sync-period is invalid: time: invalid duration " ++ raw)
      | some d => Except.ok (path, d)

/-- Modelled from the spec: reading and parsing the declarative input; a
missing or unreadable path is a fatal error, and parse errors propagate
from the external loader. -/
def loadServices (inp : RunInput) (path : String) : Except String (List ServiceDeclaration) :=
  match inp.fileContents path with
  | none => Except.error ("-service-config file \x22" ++ path ++ "\x22 not found")
  | some contents => inp.parseHCL contents

/-- Modelled from the spec: the whole pre-loop validation pipeline; any
outcome other than exactly two declarations is the fatal configuration
error of §3. -/
def runValidate (inp : RunInput) : Except String (List ServiceDeclaration × Nat) :=
  match validateFlags inp with
  | Except.error e => Except.error e
  | Except.ok (path, d) =>
    match loadServices inp path with
    | Except.error e => Except.error e
    | Except.ok svcs =>
      if svcs.length = 2 then Except.ok (svcs, d)
      else Except.error "expected 2 services to be defined"

/-- The observable outcome of one run: the terminal status (none while the
loop is still running after the given events), the error written to the
UI, and the registry traffic. -/
structure RunOutcome where
  exit : Option Nat
  errMsg : String
  observed : List RegistryOp
  deregAttempts : List String
deriving DecidableEq

/-- Modelled from the spec: (c *Command).Run — validation first (a failure
exits 1 before the loop starts, with zero registry calls), then the
timer-driven loop over the event schedule; an interrupt-driven shutdown
terminates with status 0. -/
def commandRun (inp : RunInput) (evs : List Ev) : RunOutcome :=
  match runValidate inp with
  | Except.error e =>
    { exit := some 1, errMsg := e, observed := [], deregAttempts := [] }
  | Except.ok (svcs, _) =>
    let fin := engineRun svcs evs initEngine
    { exit := if fin.stopped then some 0 else none, errMsg := "",
      observed := fin.observed, deregAttempts := fin.deregAttempts }

/-- The primary service declared by the registration test input. -/
def sampleSvc1 : ServiceDeclaration :=
  { id := "service-id", name := "service", port := 80,
    kind := SvcKind.normal, proxy := none }

/-- The mesh-proxy companion declared by the registration test input. -/
def sampleSvc2 : ServiceDeclaration :=
  { id := "service-id-sidecar-proxy", name := "service-sidecar-proxy", port := 2000,
    kind := SvcKind.connectProxy,
    proxy := some { destinationServiceName := "service",
                    destinationServiceId := "service-id",
                    localServicePort := 80 } }

/-- A run input whose configuration file is empty: it parses to zero
declarations. -/
def inputEmptyConfig : RunInput :=
  { serviceConfigFlag := some "/tmp/svc.hcl", syncPeriodFlag := none,
    fileContents := fun _ => some "",
    parseHCL := fun _ => Except.ok [],
    parseDuration := fun _ => none }

/-- A run input with no -service-config flag. -/
def inputNoFlag : RunInput :=
  { serviceConfigFlag := none, syncPeriodFlag := none,
    fileContents := fun _ => none,
    parseHCL := fun _ => Except.ok [],
    parseDuration := fun _ => none }

/-- A run input whose -sync-period flag does not parse as a duration. -/
def inputBadPeriod : RunInput :=
  { serviceConfigFlag := some "/config.hcl", syncPeriodFlag := some "notparseable",
    fileContents := fun _ => none,
    parseHCL := fun _ => Except.ok [],
    parseDuration := fun _ => none }

/-- A run input pointing at a path that does not exist. -/
def inputMissingFile : RunInput :=
  { serviceConfigFlag := some "/does/not/exist", syncPeriodFlag := none,
    fileContents := fun _ => none,
    parseHCL := fun _ => Except.ok [],
    parseDuration := fun _ => none }

/-- A run input that validates: the file holds the two-service
registration input and the 100ms sync period parses. -/
def inputGood : RunInput :=
  { serviceConfigFlag := some "/tmp/svc.hcl", syncPeriodFlag := some "100ms",
    fileContents := fun _ => some "services",
    parseHCL := fun _ => Except.ok [sampleSvc1, sampleSvc2],
    parseDuration := fun _ => some 100 }

end Sidecar

namespace ConnectInject

/-- A handler with no auth method configured, as in the default test. -/
def handlerNoAuth : Handler :=
  { log := "handler", authMethod := "", imageConsulK8s := "hashicorp/consul-k8s:9.9.9" }

/-- A handler with an auth method configured. -/
def handlerAuth : Handler :=
  { log := "handler", authMethod := "auth-method",
    imageConsulK8s := "hashicorp/consul-k8s:9.9.9" }

/-- A pod with a single web container and no annotations. -/
def podPlain : Pod :=
  { name := "web-pod", annotations := [],
    containers := [{ name := "web", image := "", env := [],
                     volumeMounts := [], command := [] }] }

/-- A pod carrying the sync-period annotation among others. -/
def podAnnotated : Pod :=
  { name := "annotated-pod",
    annotations := [("other", "x"), (annotationSyncPeriod, " 55s ")],
    containers := [{ name := "web", image := "", env := [],
                     volumeMounts := [], command := [] }] }

/-- A second pod that agrees with podAnnotated on the sync-period key but
differs everywhere else. -/
def podAnnotatedAlt : Pod :=
  { name := "different-pod",
    annotations := [(annotationSyncPeriod, " 55s "), ("more", "y")],
    containers := [] }

end ConnectInject

namespace ConnectInject

theorem syncArg_ne_consul (v : String) : "-sync-period=" ++ v ≠ "consul-k8s" := by
  intro h
  have h2 := congrArg (fun s => s.data.get? 0) h
  exact absurd (show some '-' = some 'c' from h2) (by decide)

theorem syncArg_ne_connect (v : String) : "-sync-period=" ++ v ≠ "connect-sidecar" := by
  intro h
  have h2 := congrArg (fun s => s.data.get? 0) h
  exact absurd (show some '-' = some 'c' from h2) (by decide)

theorem syncArg_ne_svcConfig (v : String) : "-sync-period=" ++ v ≠ "-service-config" := by
  intro h
  have h2 := congrArg (fun s => s.data.get? 2) h
  exact absurd (show some 'y' = some 'e' from h2) (by decide)

theorem syncArg_ne_hcl (v : String) :
    "-sync-period=" ++ v ≠ "/consul/connect-inject/service.hcl" := by
  intro h
  have h2 := congrArg (fun s => s.data.get? 0) h
  exact absurd (show some '-' = some '/' from h2) (by decide)

theorem syncArg_ne_token (v : String) :
    "-sync-period=" ++ v ≠ "-token-file=/consul/connect-inject/acl-token" := by
  intro h
  have h2 := congrArg (fun s => s.data.get? 1) h
  exact absurd (show some 's' = some 't' from h2) (by decide)

theorem syncArg_inj (v w : String)
    (h : "-sync-period=" ++ v = "-sync-period=" ++ w) : v = w := by
  have h2 := congrArg String.data h
  simp only [String.data_append] at h2
  exact String.ext (List.append_cancel_left h2)

theorem mem_sidecarCommand (h : Handler) (pod : Pod) (s : String) :
    s ∈ sidecarCommand h pod ↔
      (s = "consul-k8s" ∨ s = "connect-sidecar" ∨ s = "-service-config" ∨
       s = "/consul/connect-inject/service.hcl" ∨
       (h.authMethod ≠ "" ∧ s = "-token-file=/consul/connect-inject/acl-token") ∨
       (∃ a, pod.annotations.lookup annotationSyncPeriod = some a ∧
             s = "-sync-period=" ++ trimSpace a)) := by
  unfold sidecarCommand
  by_cases ha : h.authMethod = "" <;>
  cases hl : pod.annotations.lookup annotationSyncPeriod <;>
  simp [ha, hl, or_assoc]

end ConnectInject

namespace ConnectInject

theorem connectSidecarSt_eq (h : Handler) (pod : Pod) :
    connectSidecarSt h pod = (connectSidecar h pod, h, pod) := by
  unfold connectSidecarSt connectSidecar sidecarCommand
  rfl

/-- Claim C1: with no auth method configured and no sync-period annotation, the
command of the built container is exactly the four fixed arguments, its
environment declares HOST_IP resolved from status.hostIP and
CONSUL_HTTP_ADDR as the resolved value with the fixed port 8500, and its
volume mounts hold exactly one mount at /consul/connect-inject. -/
theorem connectSidecar_default (h : Handler) (pod : Pod)
    (hauth : h.authMethod = "")
    (hann : pod.annotations.lookup annotationSyncPeriod = none) :
    (connectSidecar h pod).command =
      ["consul-k8s", "connect-sidecar",
       "-service-config", "/consul/connect-inject/service.hcl"] ∧
    (connectSidecar h pod).env =
      [{ name := "HOST_IP", value := "",
         valueFrom := some { fieldRef := some { fieldPath := "status.hostIP" } } },
       { name := "CONSUL_HTTP_ADDR", value := "$(HOST_IP):8500", valueFrom := none }] ∧
    (connectSidecar h pod).volumeMounts.length = 1 ∧
    ∀ m ∈ (connectSidecar h pod).volumeMounts, m.mountPath = "/consul/connect-inject" := by
  refine ⟨?_, rfl, rfl, ?_⟩
  · show sidecarCommand h pod = _
    unfold sidecarCommand
    simp [hauth, hann]
  · intro m hm
    have hm2 : m ∈ [{ name := volumeName,
                      mountPath := "/consul/connect-inject" : VolumeMount }] := hm
    rw [List.mem_singleton] at hm2
    rw [hm2]

theorem connectSidecar_default_witness :
    (connectSidecar handlerNoAuth podPlain).command =
      ["consul-k8s", "connect-sidecar",
       "-service-config", "/consul/connect-inject/service.hcl"] :=
  (connectSidecar_default handlerNoAuth podPlain rfl rfl).1

/-- Claim C2: the built command contains -token-file=/consul/connect-inject/acl-token
exactly when the auth method of the handler is a non-empty string. -/
theorem connectSidecar_tokenFile_iff (h : Handler) (pod : Pod) :
    "-token-file=/consul/connect-inject/acl-token" ∈ (connectSidecar h pod).command ↔
      h.authMethod ≠ "" := by
  have hc : (connectSidecar h pod).command = sidecarCommand h pod := rfl
  rw [hc, mem_sidecarCommand]
  constructor
  · rintro (h1 | h1 | h1 | h1 | ⟨ha, _⟩ | ⟨a, _, h1⟩)
    · exact absurd h1 (by decide)
    · exact absurd h1 (by decide)
    · exact absurd h1 (by decide)
    · exact absurd h1 (by decide)
    · exact ha
    · exact absurd h1.symm (syncArg_ne_token (trimSpace a))
  · intro ha
    exact Or.inr (Or.inr (Or.inr (Or.inr (Or.inl ⟨ha, rfl⟩))))

/-- Claim C3: the built command contains an argument -sync-period=v exactly when
the pod carries the sync-period annotation, and then v is the annotation value
with surrounding whitespace trimmed. -/
theorem connectSidecar_syncPeriod_iff (h : Handler) (pod : Pod) (v : String) :
    ("-sync-period=" ++ v) ∈ (connectSidecar h pod).command ↔
      ∃ a, pod.annotations.lookup annotationSyncPeriod = some a ∧ v = trimSpace a := by
  have hc : (connectSidecar h pod).command = sidecarCommand h pod := rfl
  rw [hc, mem_sidecarCommand]
  constructor
  · rintro (h1 | h1 | h1 | h1 | ⟨_, h1⟩ | ⟨a, hl, h1⟩)
    · exact absurd h1 (syncArg_ne_consul v)
    · exact absurd h1 (syncArg_ne_connect v)
    · exact absurd h1 (syncArg_ne_svcConfig v)
    · exact absurd h1 (syncArg_ne_hcl v)
    · exact absurd h1 (syncArg_ne_token v)
    · exact ⟨a, hl, syncArg_inj v (trimSpace a) h1⟩
  · rintro ⟨a, hl, rfl⟩
    exact Or.inr (Or.inr (Or.inr (Or.inr (Or.inr ⟨a, hl, rfl⟩))))

/-- Claim C4: connectSidecar is deterministic (equal handler and pod inputs give
equal containers) and side-effect-free (the state-passing rendering of its
body returns exactly the container and the untouched input state). -/
theorem connectSidecar_deterministic (h1 h2 : Handler) (p1 p2 : Pod)
    (hh : h1 = h2) (hp : p1 = p2) :
    connectSidecar h1 p1 = connectSidecar h2 p2 ∧
    connectSidecarSt h1 p1 = (connectSidecar h1 p1, h1, p1) := by
  subst hh
  subst hp
  exact ⟨rfl, connectSidecarSt_eq h1 p1⟩

theorem connectSidecar_deterministic_witness :
    connectSidecar handlerAuth podAnnotated = connectSidecar handlerAuth podAnnotated ∧
    connectSidecarSt handlerAuth podAnnotated =
      (connectSidecar handlerAuth podAnnotated, handlerAuth, podAnnotated) :=
  connectSidecar_deterministic handlerAuth handlerAuth podAnnotated podAnnotated rfl rfl

/-- Claim C9: the built container depends on the pod only through the
sync-period annotation: under one handler, two pods whose annotation maps
agree on that key yield equal containers. -/
theorem connectSidecar_annotationOnly (h : Handler) (p1 p2 : Pod)
    (hl : p1.annotations.lookup annotationSyncPeriod =
          p2.annotations.lookup annotationSyncPeriod) :
    connectSidecar h p1 = connectSidecar h p2 := by
  unfold connectSidecar sidecarCommand
  rw [hl]

theorem connectSidecar_annotationOnly_witness :
    connectSidecar handlerNoAuth podAnnotated = connectSidecar handlerNoAuth podAnnotatedAlt :=
  connectSidecar_annotationOnly handlerNoAuth podAnnotated podAnnotatedAlt (by decide)

/-- Claim C10: connectSidecar never mutates its inputs: in the state-passing
rendering of its body, the handler and the pod coming out of the call are
the ones that went in, and the container is the one the pure function
returns. -/
theorem connectSidecar_frame (h : Handler) (pod : Pod) :
    (connectSidecarSt h pod).2.1 = h ∧ (connectSidecarSt h pod).2.2 = pod ∧
    (connectSidecarSt h pod).1 = connectSidecar h pod := by
  rw [connectSidecarSt_eq]
  exact ⟨rfl, rfl, rfl⟩

end ConnectInject

namespace Sidecar

theorem interrupt_ok (s : EngineState) :
    interrupt s = Except.ok (if s.sigClosed then s else { s with sigClosed := true }) := by
  unfold interrupt closeSignal
  by_cases hs : s.sigClosed <;> simp [hs]

theorem engineStep_intr (svcs : List ServiceDeclaration) (s : EngineState) :
    engineStep svcs s Ev.intr = if s.sigClosed then s else { s with sigClosed := true } := by
  unfold engineStep
  rw [interrupt_ok]

theorem engineStep_stopped (svcs : List ServiceDeclaration) (s : EngineState) (e : Ev)
    (hs : s.stopped = true) :
    (engineStep svcs s e).stopped = true ∧
    (engineStep svcs s e).teardowns = s.teardowns ∧
    (engineStep svcs s e).observed = s.observed := by
  cases e with
  | tick up => simp [engineStep, hs]
  | intr =>
    rw [engineStep_intr]
    by_cases hc : s.sigClosed <;> simp [hc, hs]

theorem engineRun_stopped (svcs : List ServiceDeclaration) (evs : List Ev) (s : EngineState)
    (hs : s.stopped = true) :
    (engineRun svcs evs s).stopped = true ∧
    (engineRun svcs evs s).teardowns = s.teardowns ∧
    (engineRun svcs evs s).observed = s.observed := by
  induction evs generalizing s with
  | nil => exact ⟨hs, rfl, rfl⟩
  | cons e rest ih =>
    have hstep := engineStep_stopped svcs s e hs
    have hrest := ih (engineStep svcs s e) hstep.1
    have hcons : engineRun svcs (e :: rest) s = engineRun svcs rest (engineStep svcs s e) := rfl
    rw [hcons]
    refine ⟨hrest.1, ?_, ?_⟩
    · rw [hrest.2.1, hstep.2.1]
    · rw [hrest.2.2, hstep.2.2]

theorem engineRun_interrupted (svcs : List ServiceDeclaration) (evs : List Ev) (s : EngineState)
    (hc : s.sigClosed = true) (hs : s.stopped = false)
    (htick : ∃ u, Ev.tick u ∈ evs) :
    (engineRun svcs evs s).teardowns = s.teardowns + 1 ∧
    (engineRun svcs evs s).stopped = true := by
  induction evs generalizing s with
  | nil =>
    rcases htick with ⟨u, hu⟩
    exact absurd hu (List.not_mem_nil _)
  | cons e rest ih =>
    cases e with
    | tick up =>
      have hstep : engineStep svcs s (Ev.tick up) = deregisterAll svcs s := by
        simp [engineStep, hs, hc]
      have hrun : engineRun svcs (Ev.tick up :: rest) s =
          engineRun svcs rest (deregisterAll svcs s) := by
        simp [engineRun, List.foldl_cons, hstep]
      have hfin := engineRun_stopped svcs rest (deregisterAll svcs s) (by simp [deregisterAll])
      rw [hrun]
      refine ⟨?_, hfin.1⟩
      rw [hfin.2.1]
      simp [deregisterAll]
    | intr =>
      have hstep : engineStep svcs s Ev.intr = s := by
        rw [engineStep_intr, if_pos hc]
      have hrun : engineRun svcs (Ev.intr :: rest) s = engineRun svcs rest s := by
        simp [engineRun, List.foldl_cons, hstep]
      rcases htick with ⟨u, hu⟩
      have hu2 : Ev.tick u ∈ rest := by
        rcases List.mem_cons.mp hu with h1 | h1
        · exact absurd h1 (by simp)
        · exact h1
      rw [hrun]
      exact ih s hc hs ⟨u, hu2⟩

end Sidecar

namespace Sidecar

theorem engineRun_intr_tick_stopped (svcs : List ServiceDeclaration)
    (pre : List Ev) (u : Bool) :
    (engineRun svcs (pre ++ [Ev.intr, Ev.tick u]) initEngine).stopped = true := by
  have hsplit : engineRun svcs (pre ++ [Ev.intr, Ev.tick u]) initEngine =
      engineStep svcs (engineStep svcs (engineRun svcs pre initEngine) Ev.intr) (Ev.tick u) := by
    simp [engineRun, List.foldl_append]
  rw [hsplit, engineStep_intr]
  by_cases hc : (engineRun svcs pre initEngine).sigClosed
  · rw [if_pos hc]
    by_cases hst : (engineRun svcs pre initEngine).stopped
    · simp [engineStep, hst]
    · simp [engineStep, hst, hc, deregisterAll]
  · rw [if_neg hc]
    by_cases hst : (engineRun svcs pre initEngine).stopped
    · simp [engineStep, hst]
    · simp [engineStep, hst, deregisterAll]

theorem engineRun_down_init (svcs : List ServiceDeclaration) (n : Nat) :
    engineRun svcs (List.replicate n (Ev.tick false)) initEngine = initEngine := by
  induction n with
  | zero => rfl
  | succ k ih =>
    have h2 : engineStep svcs initEngine (Ev.tick false) = initEngine := rfl
    calc engineRun svcs (List.replicate (k + 1) (Ev.tick false)) initEngine
        = engineRun svcs (List.replicate k (Ev.tick false))
            (engineStep svcs initEngine (Ev.tick false)) := rfl
      _ = initEngine := by rw [h2]; exact ih

/-- Claim C5: an input whose declarative configuration does not define exactly
two services makes the run entry point fail with the fatal expected-2-services
configuration error: exit status 1, before the loop starts, with zero
registry calls. -/
theorem run_wrongServiceCount_fatal (inp : RunInput) (evs : List Ev)
    (p : String) (d : Nat) (svcs : List ServiceDeclaration)
    (hflags : validateFlags inp = Except.ok (p, d))
    (hload : loadServices inp p = Except.ok svcs)
    (hcount : svcs.length ≠ 2) :
    commandRun inp evs =
      { exit := some 1, errMsg := "expected 2 services to be defined",
        observed := [], deregAttempts := [] } := by
  simp [commandRun, runValidate, hflags, hload, hcount]

theorem run_wrongServiceCount_fatal_witness :
    commandRun inputEmptyConfig [] =
      { exit := some 1, errMsg := "expected 2 services to be defined",
        observed := [], deregAttempts := [] } :=
  run_wrongServiceCount_fatal inputEmptyConfig [] "/tmp/svc.hcl" defaultSyncPeriod []
    rfl rfl (by decide)

/-- Claim C6: Run exits 1 with the descriptive error and zero registry calls
when the service-config flag is unset, when the sync-period flag does not
parse, or when the config path cannot be read; and a run terminated by a
clean external interrupt terminates with status 0. -/
theorem run_errors_and_interrupt (inp : RunInput) (evs : List Ev) :
    (inp.serviceConfigFlag = none →
      commandRun inp evs =
        { exit := some 1, errMsg := "-service-config must be set",
          observed := [], deregAttempts := [] }) ∧
    (∀ p raw, inp.serviceConfigFlag = some p → inp.syncPeriodFlag = some raw →
      inp.parseDuration raw = none →
      commandRun inp evs =
        { exit := some 1,
          errMsg := "-sync-period is invalid: time: invalid duration " ++ raw,
          observed := [], deregAttempts := [] }) ∧
    (∀ p d, validateFlags inp = Except.ok (p, d) → inp.fileContents p = none →
      commandRun inp evs =
        { exit := some 1,
          errMsg := "-service-config file \x22" ++ p ++ "\x22 not found",
          observed := [], deregAttempts := [] }) ∧
    (∀ svcs d, runValidate inp = Except.ok (svcs, d) → ∀ (pre : List Ev) (u : Bool),
      (commandRun inp (pre ++ [Ev.intr, Ev.tick u])).exit = some 0) := by
  refine ⟨?_, ?_, ?_, ?_⟩
  · intro hnone
    simp [commandRun, runValidate, validateFlags, hnone]
  · intro p raw hp hraw hdur
    simp [commandRun, runValidate, validateFlags, hp, hraw, hdur]
  · intro p d hflags hfile
    simp [commandRun, runValidate, loadServices, hflags, hfile]
  · intro svcs d hv pre u
    simp only [commandRun, hv]
    simp [engineRun_intr_tick_stopped]

theorem run_errors_and_interrupt_witness :
    commandRun inputNoFlag [] =
      { exit := some 1, errMsg := "-service-config must be set",
        observed := [], deregAttempts := [] } ∧
    commandRun inputBadPeriod [] =
      { exit := some 1,
        errMsg := "-sync-period is invalid: time: invalid duration notparseable",
        observed := [], deregAttempts := [] } ∧
    commandRun inputMissingFile [] =
      { exit := some 1,
        errMsg := "-service-config file \x22/does/not/exist\x22 not found",
        observed := [], deregAttempts := [] } ∧
    (commandRun inputGood ([Ev.tick true] ++ [Ev.intr, Ev.tick true])).exit = some 0 :=
  ⟨(run_errors_and_interrupt inputNoFlag []).1 rfl,
   (run_errors_and_interrupt inputBadPeriod []).2.1 "/config.hcl" "notparseable" rfl rfl rfl,
   (run_errors_and_interrupt inputMissingFile []).2.2.1 "/does/not/exist" defaultSyncPeriod
     rfl rfl,
   (run_errors_and_interrupt inputGood []).2.2.2 [sampleSvc1, sampleSvc2] 100 rfl
     [Ev.tick true] true⟩

/-- Claim C7: the interrupt is idempotent: it never errors, firing it again on
an already-interrupted command is a no-op on the same state, and from an
interrupted running engine any schedule that reaches another loop
iteration performs exactly one teardown pass and stops. -/
theorem interrupt_idempotent (s : EngineState) (svcs : List ServiceDeclaration)
    (evs : List Ev) (hstop : s.stopped = false) (htick : ∃ u, Ev.tick u ∈ evs) :
    ∃ s2, interrupt s = Except.ok s2 ∧
      interrupt s2 = Except.ok s2 ∧
      s2.sigClosed = true ∧
      (engineRun svcs evs s2).teardowns = s.teardowns + 1 ∧
      (engineRun svcs evs s2).stopped = true := by
  by_cases hc : s.sigClosed
  · have hrun := engineRun_interrupted svcs evs s hc hstop htick
    exact ⟨s, by rw [interrupt_ok, if_pos hc], by rw [interrupt_ok, if_pos hc], hc,
           hrun.1, hrun.2⟩
  · have hrun := engineRun_interrupted svcs evs { s with sigClosed := true } rfl hstop htick
    refine ⟨{ s with sigClosed := true }, by rw [interrupt_ok, if_neg hc], ?_, rfl,
            hrun.1, hrun.2⟩
    simp [interrupt]

theorem interrupt_idempotent_witness :
    ∃ s2, interrupt initEngine = Except.ok s2 ∧
      interrupt s2 = Except.ok s2 ∧
      s2.sigClosed = true ∧
      (engineRun [sampleSvc1, sampleSvc2] [Ev.tick true] s2).teardowns =
        initEngine.teardowns + 1 ∧
      (engineRun [sampleSvc1, sampleSvc2] [Ev.tick true] s2).stopped = true :=
  interrupt_idempotent initEngine [sampleSvc1, sampleSvc2] [Ev.tick true] rfl
    ⟨true, List.mem_singleton.mpr rfl⟩

/-- Claim C8: an engine started against an unreachable registry keeps retrying
at the fixed cadence with no backoff growth; on the first tick at which
the endpoint responds it registers both declared services, and the server
observes exactly those two registration calls. -/
theorem registration_after_registry_up (inp : RunInput) (evs : List Ev)
    (s1 s2 : ServiceDeclaration) (d n : Nat)
    (hv : runValidate inp = Except.ok ([s1, s2], d))
    (hevs : evs = List.replicate n (Ev.tick false) ++ [Ev.tick true]) :
    (commandRun inp evs).observed =
      [RegistryOp.register s1, RegistryOp.register s2] := by
  subst hevs
  simp only [commandRun, hv]
  have hsplit : engineRun [s1, s2] (List.replicate n (Ev.tick false) ++ [Ev.tick true])
        initEngine =
      engineStep [s1, s2] (engineRun [s1, s2] (List.replicate n (Ev.tick false)) initEngine)
        (Ev.tick true) := by
    simp [engineRun, List.foldl_append]
  simp only [hsplit, engineRun_down_init]
  simp [engineStep, initEngine, runOnce]

theorem registration_after_registry_up_witness :
    (commandRun inputGood (List.replicate 3 (Ev.tick false) ++ [Ev.tick true])).observed =
      [RegistryOp.register sampleSvc1, RegistryOp.register sampleSvc2] :=
  registration_after_registry_up inputGood
    (List.replicate 3 (Ev.tick false) ++ [Ev.tick true])
    sampleSvc1 sampleSvc2 100 3 rfl rfl

end Sidecar
